import Mathlib

/-!
Verification of the RFID reader sensor of the STDR simulator
(`src/stdr_robot/src/sensors/rfid_reader.cpp`).

The development shallowly embeds the two core pieces of the file:

* `angCheck` — the angular interval membership test, including its inline
  periodic-reduction ("normalization") step, modelled here as `normAng`;
* `RfidReader` state and callbacks — `updateSensorCallback` (the detection
  cycle), `updateTransform` (the pose refresh) and `receiveRfids` (the tag
  registry update), modelled as pure state transformers, with the timer
  ticks and external inputs made explicit as an event list.

C `float` arithmetic is modelled over `ℝ`; the C `(int)` conversion applied
to the quotient in the reduction step is modelled exactly as truncation
toward zero (`ctrunc`).  All concrete inputs appearing below stay far from
rounding boundaries, so the real-valued model agrees with the float code on
them.
-/

open Real

namespace StdrRobot

/-- Modelled from the spec: the constant `PI` used by `angCheck` comes from a
header that is not part of the sources; per the spec angles are radians and a
full turn is `2π`, so `PI` denotes the mathematical `π`. -/
noncomputable def PI : ℝ := Real.pi

/-- C conversion of a floating value to `int`: truncation toward zero. -/
noncomputable def ctrunc (x : ℝ) : ℤ := if 0 ≤ x then ⌊x⌋ else ⌈x⌉

/-- The periodic reduction applied (three times, inline) at the top of
`angCheck`:  `c = (a + 2*PI) / (2*PI); a' = a + (1 - c) * PI * 2`. -/
noncomputable def normAng (a : ℝ) : ℝ :=
  a + (1 - (ctrunc ((a + 2 * PI) / (2 * PI)) : ℝ)) * PI * 2

/-- Model of `angCheck` from `rfid_reader.cpp`: reduce the three angles, then branch on
the sign of `min_ * max_` (computed on the ORIGINAL arguments).  Same sign:
open interval test on the reduced values.  Differing signs: shift `max` up by
a full turn and accept if either the reduced target or the reduced target
shifted by a full turn lies in the open interval. -/
noncomputable def angCheck (target_ min_ max_ : ℝ) : Prop :=
  if min_ * max_ > 0 then
    normAng target_ > normAng min_ ∧ normAng target_ < normAng max_
  else
    (normAng target_ > normAng min_ ∧
      normAng target_ < normAng max_ + 2 * PI) ∨
    (normAng target_ + 2 * PI > normAng min_ ∧
      normAng target_ + 2 * PI < normAng max_ + 2 * PI)

lemma two_pi_pos : (0 : ℝ) < 2 * π := by positivity

lemma PI_eq : PI = π := rfl

/-- On nonnegative quotients the C truncation is the floor. -/
lemma ctrunc_of_nonneg (x : ℝ) (h : 0 ≤ x) : ctrunc x = ⌊x⌋ := if_pos h

/-- On negative quotients the C truncation is the ceiling. -/
lemma ctrunc_of_neg (x : ℝ) (h : ¬ 0 ≤ x) : ctrunc x = ⌈x⌉ := if_neg h

/-- Angles already in `[0, 2π)` are fixed by the reduction. -/
lemma normAng_of_mem (a : ℝ) (h0 : 0 ≤ a) (h1 : a < 2 * π) : normAng a = a := by
  have hpos := two_pi_pos
  have hq1 : (1 : ℝ) ≤ (a + 2 * PI) / (2 * PI) := by
    rw [PI_eq, le_div_iff₀ hpos]; linarith
  have hq2 : (a + 2 * PI) / (2 * PI) < 2 := by
    rw [PI_eq, div_lt_iff₀ hpos]; linarith
  have hfl : ⌊(a + 2 * PI) / (2 * PI)⌋ = 1 := by
    rw [Int.floor_eq_iff]
    constructor
    · exact_mod_cast hq1
    · push_cast; linarith
  unfold normAng
  rw [ctrunc_of_nonneg _ (by linarith : (0:ℝ) ≤ (a + 2 * PI) / (2 * PI)), hfl]
  push_cast
  ring

/-- Angles in `[-2π, 0)` are shifted up by one full turn by the reduction. -/
lemma normAng_of_neg_mem (a : ℝ) (h0 : -(2 * π) ≤ a) (h1 : a < 0) :
    normAng a = a + 2 * π := by
  have hpos := two_pi_pos
  have hq1 : (0 : ℝ) ≤ (a + 2 * PI) / (2 * PI) := by
    rw [PI_eq]
    exact div_nonneg (by linarith) (le_of_lt hpos)
  have hq2 : (a + 2 * PI) / (2 * PI) < 1 := by
    rw [PI_eq, div_lt_iff₀ hpos]; linarith
  have hfl : ⌊(a + 2 * PI) / (2 * PI)⌋ = 0 := by
    rw [Int.floor_eq_iff]
    constructor
    · exact_mod_cast hq1
    · push_cast; linarith
  unfold normAng
  rw [ctrunc_of_nonneg _ hq1, hfl]
  rw [PI_eq]
  push_cast
  ring

/-- For arguments at least `-2π` the reduction is `2π` times the fractional
part of the shifted quotient. -/
lemma normAng_eq_fract (a : ℝ) (h : -(2 * π) ≤ a) :
    normAng a = 2 * π * Int.fract ((a + 2 * π) / (2 * π)) := by
  have hpos := two_pi_pos
  have hq0 : (0 : ℝ) ≤ (a + 2 * PI) / (2 * PI) := by
    rw [PI_eq]
    exact div_nonneg (by linarith) (le_of_lt hpos)
  have hmul : 2 * π * ((a + 2 * π) / (2 * π)) = a + 2 * π :=
    mul_div_cancel₀ _ (ne_of_gt hpos)
  unfold normAng
  rw [ctrunc_of_nonneg _ hq0, Int.fract]
  rw [PI_eq]
  linear_combination -hmul

/-- For arguments at least `-2π`, the reduced angle lands in `[0, 2π)`. -/
lemma normAng_mem_Ico (a : ℝ) (h : -(2 * π) ≤ a) :
    0 ≤ normAng a ∧ normAng a < 2 * π := by
  rw [normAng_eq_fract a h]
  have hf0 := Int.fract_nonneg ((a + 2 * π) / (2 * π))
  have hf1 := Int.fract_lt_one ((a + 2 * π) / (2 * π))
  have hpos := two_pi_pos
  constructor
  · exact mul_nonneg (le_of_lt hpos) hf0
  · nlinarith

/-- Pose of `geometry_msgs::Pose2D` / `stdr_msgs` tag poses: a 2D position
and an orientation. -/
structure Pose2D where
  x : ℝ
  y : ℝ
  theta : ℝ

/-- A `stdr_msgs::RfidTag`: an identifier, an opaque message payload, and a
2D pose. -/
structure RfidTag where
  tag_id : String
  message : String
  pose : Pose2D

/-- The fields of `stdr_msgs::RfidSensorMsg` the reader uses. -/
structure RfidSensorDescription where
  maxRange : ℝ
  angleSpan : ℝ
  frequency : ℝ
  frame_id : String

/-- The `info` of the occupancy grid map: only the extent is consulted. -/
structure MapInfo where
  width : ℕ
  height : ℕ

/-- The cached `tf::StampedTransform`: the reader only reads the origin's
`x`, `y` and the yaw of the rotation, so the model carries exactly those. -/
structure SensorTransform where
  x : ℝ
  y : ℝ
  yaw : ℝ

/-- The mutable members of `RfidReader` that the three callbacks touch,
together with the immutable description, map and namespace set at
construction. -/
structure RfidReaderState where
  gotTransform : Bool
  sensorTransform : SensorTransform
  rfid_tags : List RfidTag
  map : MapInfo
  description : RfidSensorDescription
  ns : String

/-- A `stdr_msgs::RfidSensorMeasurementMsg` as published by the cycle. -/
structure RfidSensorMeasurementMsg where
  frame_id : String
  header_stamp : ℕ
  header_frame_id : String
  rfid_tags : List RfidTag

/-- Modelled from the spec: the C math library `atan2` used for the bearing
("angle of the vector tag − sensor"); the library itself is not part of the
sources.  Standard piecewise definition via `arctan`. -/
noncomputable def atan2 (y x : ℝ) : ℝ :=
  if 0 < x then Real.arctan (y / x)
  else if x < 0 ∧ 0 ≤ y then Real.arctan (y / x) + π
  else if x < 0 ∧ y < 0 then Real.arctan (y / x) - π
  else if x = 0 ∧ 0 < y then π / 2
  else if x = 0 ∧ y < 0 then -(π / 2)
  else 0

/-- The per-tag distance computed in the loop of `updateSensorCallback`:
`sqrt(pow(sensor_x - tag.x, 2) + pow(sensor_y - tag.y, 2))`. -/
noncomputable def tagDist (st : SensorTransform) (t : RfidTag) : ℝ :=
  Real.sqrt ((st.x - t.pose.x) ^ 2 + (st.y - t.pose.y) ^ 2)

/-- The per-tag bearing computed in the loop of `updateSensorCallback`:
`atan2(tag.y - sensor_y, tag.x - sensor_x)`. -/
noncomputable def tagBearing (st : SensorTransform) (t : RfidTag) : ℝ :=
  atan2 (t.pose.y - st.y) (t.pose.x - st.x)

/-- A tag survives both `continue` guards of the loop: the range gate
`!(dist > max_range)` and the angular gate `angCheck(ang, sensor_th -
angleSpan/2, sensor_th + angleSpan/2)`. -/
noncomputable def tagDetected (st : SensorTransform)
    (desc : RfidSensorDescription) (t : RfidTag) : Prop :=
  ¬ (tagDist st t > desc.maxRange) ∧
  angCheck (tagBearing st t) (st.yaw - desc.angleSpan / 2)
    (st.yaw + desc.angleSpan / 2)

open scoped Classical in
/-- The loop of `updateSensorCallback`: tags passing both gates are appended
in registry iteration order. -/
noncomputable def detectedTags (st : SensorTransform)
    (desc : RfidSensorDescription) : List RfidTag → List RfidTag
  | [] => []
  | t :: rest =>
    if tagDetected st desc t then t :: detectedTags st desc rest
    else detectedTags st desc rest

/-- Model of `RfidReader::updateSensorCallback`: skip (publish nothing) unless the
transform has been acquired and the map has nonzero extent; otherwise publish
one measurement message holding the detected tags. -/
noncomputable def updateSensorCallback (s : RfidReaderState) (now : ℕ) :
    Option RfidSensorMeasurementMsg :=
  if s.gotTransform = false then none
  else if s.map.height = 0 ∨ s.map.width = 0 then none
  else some
    { frame_id := s.description.frame_id
      header_stamp := now
      header_frame_id := s.ns ++ "_" ++ s.description.frame_id
      rfid_tags := detectedTags s.sensorTransform s.description s.rfid_tags }

/-- Model of `RfidReader::receiveRfids`: wholesale replacement of the cached
tag set. -/
def receiveRfids (s : RfidReaderState) (msg : List RfidTag) : RfidReaderState :=
  { s with rfid_tags := msg }

/-- Model of `RfidReader::updateTransform`: the external lookup either yields a
transform (cache it and set the flag) or throws (caught; state untouched,
logged at debug level only). -/
def updateTransform (s : RfidReaderState) (lookup : Option SensorTransform) :
    RfidReaderState :=
  match lookup with
  | some tr => { s with sensorTransform := tr, gotTransform := true }
  | none => s

/-- One external stimulus: a pose-refresh timer tick (with the lookup's
outcome), a tag registry message, or a detection-cycle timer tick (with the
current time). -/
inductive RfidEvent where
  | tfTick (lookup : Option SensorTransform)
  | rfidMsg (tags : List RfidTag)
  | sensorTick (now : ℕ)

/-- Dispatch of one event to its callback; only a sensor tick can emit a
measurement. -/
noncomputable def step (s : RfidReaderState) :
    RfidEvent → RfidReaderState × Option RfidSensorMeasurementMsg
  | RfidEvent.tfTick lookup => (updateTransform s lookup, none)
  | RfidEvent.rfidMsg tags => (receiveRfids s tags, none)
  | RfidEvent.sensorTick now => (s, updateSensorCallback s now)

/-- Run a sequence of events (the callbacks are serialized by the
single-threaded spinner), collecting each tick's publication outcome. -/
noncomputable def run :
    RfidReaderState → List RfidEvent →
      RfidReaderState × List (Option RfidSensorMeasurementMsg)
  | s, [] => (s, [])
  | s, e :: es =>
    ((run (step s e).1 es).1, (step s e).2 :: (run (step s e).1 es).2)

/-- The reduction of `-3π`: the quotient is `-1/2`, truncated toward zero
to `0`, so the result is `-3π + 2π = -π` — outside `[0, 2π)`. -/
lemma normAng_neg_three_pi : normAng (-3 * π) = -π := by
  have hq : (-3 * π + 2 * PI) / (2 * PI) = -(1 / 2) := by
    rw [PI_eq, div_eq_iff (ne_of_gt two_pi_pos)]; ring
  have hceil : (⌈(-(1 / 2) : ℝ)⌉ : ℤ) = 0 := by
    rw [Int.ceil_eq_iff]
    norm_num
  have hc : ctrunc ((-3 * π + 2 * PI) / (2 * PI)) = 0 := by
    rw [hq, ctrunc_of_neg _ (by norm_num), hceil]
  unfold normAng
  rw [hc, PI_eq]
  push_cast
  ring

/-- Claim C2 counterexample: at `a = -3π` the reduced angle is `-π`, which is
outside the claimed canonical range `(-π, π]`, and a second reduction moves it
to `π`, so the reduction is not idempotent there either. -/
theorem normAng_canonical_claim_false :
    ¬ (normAng (normAng (-3 * π)) = normAng (-3 * π) ∧
       (-π < normAng (-3 * π) ∧ normAng (-3 * π) ≤ π)) := by
  rw [normAng_neg_three_pi]
  rintro ⟨-, hlt, -⟩
  exact lt_irrefl _ hlt

/-- Claim C2 (amended): for every angle `a ≥ -2π` — which covers all angles
the reduction ever receives in this file — reducing twice equals reducing
once, and the reduced angle lies in the canonical range `[0, 2π)` (not the
spec's `(-π, π]`). -/
theorem normAng_idem_canonical (a : ℝ) (h : -(2 * π) ≤ a) :
    normAng (normAng a) = normAng a ∧ 0 ≤ normAng a ∧ normAng a < 2 * π := by
  obtain ⟨h0, h1⟩ := normAng_mem_Ico a h
  exact ⟨normAng_of_mem _ h0 h1, h0, h1⟩

/-- Witness for the amended claim C2 at the concrete angle `1`. -/
theorem normAng_idem_canonical_witness :
    -(2 * π) ≤ (1 : ℝ) ∧
      (normAng (normAng 1) = normAng 1 ∧ 0 ≤ normAng 1 ∧ normAng 1 < 2 * π) := by
  have h : -(2 * π) ≤ (1 : ℝ) := by nlinarith [Real.pi_pos]
  exact ⟨h, normAng_idem_canonical 1 h⟩

/-- Claim C1: evaluation of `angCheck` on the straddling cone
`min = 3.0, max = -3.0`.  The target `3.14` is accepted, as the spec states —
but the target `0.0` is ALSO accepted (the code shifts the already-shifted
reduced `max` by a further full turn, so the second interval test
`0 + 2π ∈ (3, -3 + 4π)` succeeds), contradicting the spec's expected
`contains(0.0, 3.0, -3.0) = false`. -/
theorem angCheck_straddle_eval :
    angCheck 3.14 3 (-3) ∧ angCheck 0 3 (-3) := by
  have hpi := Real.pi_gt_three
  have h314 : normAng 3.14 = 3.14 :=
    normAng_of_mem _ (by norm_num) (by nlinarith)
  have h3 : normAng 3 = 3 := normAng_of_mem _ (by norm_num) (by nlinarith)
  have h0 : normAng 0 = 0 := normAng_of_mem _ le_rfl (by nlinarith)
  have hm3 : normAng (-3) = -3 + 2 * π :=
    normAng_of_neg_mem _ (by nlinarith) (by norm_num)
  constructor
  · unfold angCheck
    rw [if_neg (by norm_num : ¬ ((3 : ℝ) * (-3) > 0))]
    left
    rw [h314, h3, hm3, PI_eq]
    constructor
    · norm_num
    · nlinarith
  · unfold angCheck
    rw [if_neg (by norm_num : ¬ ((3 : ℝ) * (-3) > 0))]
    right
    rw [h0, h3, hm3, PI_eq]
    constructor
    · nlinarith
    · nlinarith

/-- Claim C3: on the straddling cone `min = 3.0, max = -3.0`, a target equal
to `min` and a target equal to `max` are BOTH reported as contained by
`angCheck` (via the twice-shifted second interval test), contradicting the
spec's statement that boundary targets are never detected. -/
theorem angCheck_boundary_eval :
    angCheck 3 3 (-3) ∧ angCheck (-3) 3 (-3) := by
  have hpi := Real.pi_gt_three
  have h3 : normAng 3 = 3 := normAng_of_mem _ (by norm_num) (by nlinarith)
  have hm3 : normAng (-3) = -3 + 2 * π :=
    normAng_of_neg_mem _ (by nlinarith) (by norm_num)
  constructor
  · unfold angCheck
    rw [if_neg (by norm_num : ¬ ((3 : ℝ) * (-3) > 0))]
    right
    rw [h3, hm3, PI_eq]
    constructor
    · nlinarith
    · nlinarith
  · unfold angCheck
    rw [if_neg (by norm_num : ¬ ((3 : ℝ) * (-3) > 0))]
    left
    rw [h3, hm3, PI_eq]
    constructor
    · nlinarith
    · nlinarith

/-- Reduction fixes `0`. -/
lemma normAng_zero : normAng 0 = 0 := normAng_of_mem 0 le_rfl two_pi_pos

/-- Reduction fixes `1/2`. -/
lemma normAng_half : normAng (1 / 2) = 1 / 2 :=
  normAng_of_mem _ (by norm_num) (by nlinarith [Real.pi_gt_three])

/-- Reduction shifts `-1/2` up by a full turn. -/
lemma normAng_neg_half : normAng (-(1 / 2)) = -(1 / 2) + 2 * π :=
  normAng_of_neg_mem _ (by nlinarith [Real.pi_gt_three]) (by norm_num)

/-- Reduction fixes `π/4`. -/
lemma normAng_pi_div_four : normAng (π / 4) = π / 4 :=
  normAng_of_mem _ (by positivity) (by nlinarith [Real.pi_pos])

/-- A bearing of `0` is accepted by the cone `(-1/2, 1/2)` — via the second
(shifted-target) interval test, since the bounds have differing signs. -/
lemma angCheck_zero_halfcone : angCheck 0 (-(1 / 2)) (1 / 2) := by
  unfold angCheck
  rw [if_neg (by norm_num : ¬ ((-(1 / 2) : ℝ)) * (1 / 2) > 0)]
  right
  rw [normAng_zero, normAng_neg_half, normAng_half, PI_eq]
  constructor
  · linarith
  · linarith

/-- A bearing of `π/4` is rejected by the cone `(-1/2, 1/2)`: the unshifted
test fails since the reduced lower bound is near `2π`, and the shifted test
fails since `π/4 > 1/2`. -/
lemma angCheck_quarter_pi_halfcone : ¬ angCheck (π / 4) (-(1 / 2)) (1 / 2) := by
  have hpi := Real.pi_gt_three
  unfold angCheck
  rw [if_neg (by norm_num : ¬ ((-(1 / 2) : ℝ)) * (1 / 2) > 0)]
  rintro (⟨h1, h2⟩ | ⟨h1, h2⟩)
  · rw [normAng_pi_div_four, normAng_neg_half] at h1
    nlinarith
  · rw [normAng_pi_div_four, normAng_half, PI_eq] at h2
    nlinarith

/-- Tag A of the end-to-end scenario: at `(5, 0)`. -/
def tagA : RfidTag :=
  { tag_id := "tag_A", message := "payload_A", pose := { x := 5, y := 0, theta := 0 } }

/-- Tag B of the end-to-end scenario: at `(5, 5)`. -/
def tagB : RfidTag :=
  { tag_id := "tag_B", message := "payload_B", pose := { x := 5, y := 5, theta := 0 } }

/-- Tag C of the end-to-end scenario: at `(20, 0)`. -/
def tagC : RfidTag :=
  { tag_id := "tag_C", message := "payload_C", pose := { x := 20, y := 0, theta := 0 } }

/-- A tag at `(10, 0)`: distance from the origin exactly the maximum range. -/
def tagD : RfidTag :=
  { tag_id := "tag_D", message := "payload_D", pose := { x := 10, y := 0, theta := 0 } }

/-- Sensor transform of the end-to-end scenario: origin, heading `0`. -/
def tfW : SensorTransform := { x := 0, y := 0, yaw := 0 }

/-- Sensor configuration of the end-to-end scenario: max range `10`,
field-of-view span `1` rad. -/
def descW : RfidSensorDescription :=
  { maxRange := 10, angleSpan := 1, frequency := 10, frame_id := "rfid_reader_0" }

/-- Full reader state of the end-to-end scenario. -/
def stateW : RfidReaderState :=
  { gotTransform := true
    sensorTransform := tfW
    rfid_tags := [tagA, tagB, tagC]
    map := { width := 100, height := 100 }
    description := descW
    ns := "robot0" }

lemma tagDist_A : tagDist tfW tagA = 5 := by
  have h : (tfW.x - tagA.pose.x) ^ 2 + (tfW.y - tagA.pose.y) ^ 2 = 5 ^ 2 := by
    norm_num [tfW, tagA]
  unfold tagDist
  rw [h]
  exact Real.sqrt_sq (by norm_num)

lemma tagDist_B_le : tagDist tfW tagB ≤ 10 := by
  have h : (tfW.x - tagB.pose.x) ^ 2 + (tfW.y - tagB.pose.y) ^ 2 = 50 := by
    norm_num [tfW, tagB]
  unfold tagDist
  rw [h]
  calc Real.sqrt 50 ≤ Real.sqrt (10 ^ 2) := Real.sqrt_le_sqrt (by norm_num)
    _ = 10 := Real.sqrt_sq (by norm_num)

lemma tagDist_C : tagDist tfW tagC = 20 := by
  have h : (tfW.x - tagC.pose.x) ^ 2 + (tfW.y - tagC.pose.y) ^ 2 = 20 ^ 2 := by
    norm_num [tfW, tagC]
  unfold tagDist
  rw [h]
  exact Real.sqrt_sq (by norm_num)

lemma tagDist_D : tagDist tfW tagD = 10 := by
  have h : (tfW.x - tagD.pose.x) ^ 2 + (tfW.y - tagD.pose.y) ^ 2 = 10 ^ 2 := by
    norm_num [tfW, tagD]
  unfold tagDist
  rw [h]
  exact Real.sqrt_sq (by norm_num)

lemma tagBearing_A : tagBearing tfW tagA = 0 := by
  have h : tagBearing tfW tagA = atan2 0 5 := by
    norm_num [tagBearing, tfW, tagA]
  rw [h]
  unfold atan2
  rw [if_pos (by norm_num : (0 : ℝ) < 5)]
  norm_num

lemma tagBearing_B : tagBearing tfW tagB = π / 4 := by
  have h : tagBearing tfW tagB = atan2 5 5 := by
    norm_num [tagBearing, tfW, tagB]
  rw [h]
  unfold atan2
  rw [if_pos (by norm_num : (0 : ℝ) < 5)]
  rw [show (5 : ℝ) / 5 = 1 by norm_num]
  exact Real.arctan_one

lemma halfcone_lo : tfW.yaw - descW.angleSpan / 2 = -(1 / 2) := by
  norm_num [tfW, descW]

lemma halfcone_hi : tfW.yaw + descW.angleSpan / 2 = 1 / 2 := by
  norm_num [tfW, descW]

/-- Tag A passes both gates. -/
lemma tagA_detected : tagDetected tfW descW tagA := by
  unfold tagDetected
  constructor
  · rw [tagDist_A]
    norm_num [descW]
  · rw [tagBearing_A, halfcone_lo, halfcone_hi]
    exact angCheck_zero_halfcone

/-- Tag B passes the range gate but fails the angular gate. -/
lemma tagB_not_detected : ¬ tagDetected tfW descW tagB := by
  unfold tagDetected
  rintro ⟨-, hang⟩
  rw [tagBearing_B, halfcone_lo, halfcone_hi] at hang
  exact angCheck_quarter_pi_halfcone hang

/-- Tag C fails the range gate. -/
lemma tagC_not_detected : ¬ tagDetected tfW descW tagC := by
  unfold tagDetected
  rintro ⟨hr, -⟩
  apply hr
  rw [tagDist_C]
  norm_num [descW]

/-- Claim C4: one detection cycle on the end-to-end scenario publishes a
report whose detection list is exactly `[tagA]`: B is dropped by the angular
gate (bearing `π/4 ≈ 0.785`), C by the range gate (distance `20 > 10`). -/
theorem detectionCycle_endToEnd :
    updateSensorCallback stateW 0 =
      some { frame_id := "rfid_reader_0", header_stamp := 0,
             header_frame_id := "robot0_rfid_reader_0",
             rfid_tags := [tagA] } := by
  have hlist : detectedTags tfW descW [tagA, tagB, tagC] = [tagA] := by
    rw [detectedTags, if_pos tagA_detected, detectedTags,
      if_neg tagB_not_detected, detectedTags, if_neg tagC_not_detected,
      detectedTags]
  unfold updateSensorCallback
  rw [if_neg (by simp [stateW] : ¬ (stateW.gotTransform = false))]
  rw [if_neg (by simp [stateW] :
    ¬ (stateW.map.height = 0 ∨ stateW.map.width = 0))]
  have hst : stateW.sensorTransform = tfW := rfl
  have hdesc : stateW.description = descW := rfl
  have htags : stateW.rfid_tags = [tagA, tagB, tagC] := rfl
  rw [hst, hdesc, htags, hlist]
  rfl

/-- Claim C5: the range gate of the per-tag pipeline excludes a tag exactly
when its Euclidean distance strictly exceeds the maximum range — at distance
exactly `maxRange` detection reduces to the angular gate alone, and at any
strictly greater distance the tag is excluded outright. -/
theorem rangeGate_boundary (st : SensorTransform)
    (desc : RfidSensorDescription) (t : RfidTag) :
    (tagDist st t = desc.maxRange →
      (tagDetected st desc t ↔
        angCheck (tagBearing st t) (st.yaw - desc.angleSpan / 2)
          (st.yaw + desc.angleSpan / 2))) ∧
    (tagDist st t > desc.maxRange → ¬ tagDetected st desc t) := by
  constructor
  · intro he
    unfold tagDetected
    constructor
    · exact fun h => h.2
    · intro h
      refine ⟨?_, h⟩
      rw [he]
      exact lt_irrefl _
  · rintro hgt ⟨hr, -⟩
    exact hr hgt

/-- Witness for claim C5: tag D sits at distance exactly `10 = maxRange`, so
its detection reduces to the angular gate; tag C at distance `20 > 10` is
excluded. -/
theorem rangeGate_boundary_witness :
    (tagDetected tfW descW tagD ↔
      angCheck (tagBearing tfW tagD) (tfW.yaw - descW.angleSpan / 2)
        (tfW.yaw + descW.angleSpan / 2)) ∧
    ¬ tagDetected tfW descW tagC := by
  constructor
  · exact (rangeGate_boundary tfW descW tagD).1
      (by rw [tagDist_D]; norm_num [descW])
  · exact (rangeGate_boundary tfW descW tagC).2
      (by rw [tagDist_C]; norm_num [descW])

/-- Claim C6: while `_gotTransform` is false, any number of detection-cycle
ticks leave the state untouched and publish nothing. -/
theorem readinessGate (s : RfidReaderState) (h : s.gotTransform = false)
    (nows : List ℕ) :
    run s (nows.map RfidEvent.sensorTick) = (s, nows.map fun _ => none) := by
  induction nows with
  | nil => rfl
  | cons n rest ih =>
    have hnone : updateSensorCallback s n = none := by
      unfold updateSensorCallback
      rw [if_pos h]
    simp only [List.map_cons, run, step, ih, hnone]

/-- Witness for claim C6: three ticks on a not-yet-ready state. -/
theorem readinessGate_witness :
    ({ stateW with gotTransform := false } : RfidReaderState).gotTransform
        = false ∧
    run { stateW with gotTransform := false }
        ([0, 1, 2].map RfidEvent.sensorTick) =
      ({ stateW with gotTransform := false }, [0, 1, 2].map fun _ => none) :=
  ⟨rfl, readinessGate { stateW with gotTransform := false } rfl [0, 1, 2]⟩

/-- Claim C7: a second tag-registry message wholesale-replaces the first —
the cached set is exactly the second message's, the state coincides with the
one that only ever saw the second message, and a detection cycle therefore
evaluates exactly the second message's tags. -/
theorem receiveRfids_replaces (s : RfidReaderState) (u1 u2 : List RfidTag)
    (now : ℕ) :
    (receiveRfids (receiveRfids s u1) u2).rfid_tags = u2 ∧
    receiveRfids (receiveRfids s u1) u2 = receiveRfids s u2 ∧
    updateSensorCallback (receiveRfids (receiveRfids s u1) u2) now =
      updateSensorCallback (receiveRfids s u2) now :=
  ⟨rfl, rfl, rfl⟩

/-- Claim C8: a failed pose lookup leaves the whole state (cached transform
and readiness flag included) exactly as it was; a successful one replaces the
cached transform and sets the flag, touching nothing else. -/
theorem updateTransform_atomic (s : RfidReaderState) (tr : SensorTransform) :
    updateTransform s none = s ∧
    updateTransform s (some tr) =
      { s with sensorTransform := tr, gotTransform := true } :=
  ⟨rfl, rfl⟩

lemma step_preserves_gotTransform (s : RfidReaderState) (e : RfidEvent)
    (h : s.gotTransform = true) : ((step s e).1).gotTransform = true := by
  cases e with
  | tfTick lookup =>
    cases lookup with
    | none => exact h
    | some tr => rfl
  | rfidMsg tags => exact h
  | sensorTick now => exact h

lemma run_preserves_gotTransform :
    ∀ (es : List RfidEvent) (s : RfidReaderState), s.gotTransform = true →
      ((run s es).1).gotTransform = true
  | [], _, h => h
  | e :: es, s, h =>
    run_preserves_gotTransform es (step s e).1
      (step_preserves_gotTransform s e h)

/-- An event whose pose lookup does not succeed: anything except a transform
tick that found a transform. -/
def lookupFails : RfidEvent → Prop
  | RfidEvent.tfTick (some _) => False
  | _ => True

lemma run_preserves_sensorTransform :
    ∀ (es : List RfidEvent) (s : RfidReaderState),
      (∀ e ∈ es, lookupFails e) →
      ((run s es).1).sensorTransform = s.sensorTransform := by
  intro es
  induction es with
  | nil => intro s _; rfl
  | cons e rest ih =>
    intro s hall
    have h1 : ((step s e).1).sensorTransform = s.sensorTransform := by
      cases e with
      | tfTick lookup =>
        cases lookup with
        | none => rfl
        | some tr =>
          exact ((hall (RfidEvent.tfTick (some tr))
            (List.mem_cons_self _ _)).elim)
      | rfidMsg tags => rfl
      | sensorTick now => rfl
    calc ((run s (e :: rest)).1).sensorTransform
        = ((run (step s e).1 rest).1).sensorTransform := rfl
      _ = ((step s e).1).sensorTransform :=
          ih (step s e).1 (fun e2 he2 => hall e2 (List.mem_cons_of_mem _ he2))
      _ = s.sensorTransform := h1

/-- Claim C9: once the readiness flag is true it stays true across any event
sequence, and if every pose lookup in the sequence fails the cached transform
the cycles read is still the last successfully acquired one. -/
theorem readiness_monotone (s : RfidReaderState) (h : s.gotTransform = true)
    (es : List RfidEvent) :
    ((run s es).1).gotTransform = true ∧
    ((∀ e ∈ es, lookupFails e) →
      ((run s es).1).sensorTransform = s.sensorTransform) :=
  ⟨run_preserves_gotTransform es s h,
    fun hall => run_preserves_sensorTransform es s hall⟩

/-- Witness for claim C9: a failing pose tick, a registry update and a sensor
tick leave the flag true and the cached transform untouched. -/
theorem readiness_monotone_witness :
    stateW.gotTransform = true ∧
    ((run stateW [RfidEvent.tfTick none, RfidEvent.rfidMsg [tagB],
        RfidEvent.sensorTick 3]).1).gotTransform = true ∧
    ((run stateW [RfidEvent.tfTick none, RfidEvent.rfidMsg [tagB],
        RfidEvent.sensorTick 3]).1).sensorTransform = stateW.sensorTransform := by
  have hall : ∀ e ∈ [RfidEvent.tfTick none, RfidEvent.rfidMsg [tagB],
      RfidEvent.sensorTick 3], lookupFails e := by
    intro e he
    simp only [List.mem_cons, List.not_mem_nil, or_false] at he
    rcases he with rfl | rfl | rfl <;> trivial
  exact ⟨rfl, (readiness_monotone stateW rfl _).1,
    (readiness_monotone stateW rfl _).2 hall⟩

/-- Claim C10: whenever the readiness flag is set and the map has nonzero
extent, the cycle publishes exactly one measurement; with an empty cached tag
set the published detection list is empty rather than the cycle skipped. -/
theorem cycle_always_reports (s : RfidReaderState) (now : ℕ)
    (h : s.gotTransform = true) (hh : s.map.height ≠ 0)
    (hw : s.map.width ≠ 0) :
    (∃ r, updateSensorCallback s now = some r) ∧
    (s.rfid_tags = [] →
      updateSensorCallback s now =
        some { frame_id := s.description.frame_id, header_stamp := now,
               header_frame_id := s.ns ++ "_" ++ s.description.frame_id,
               rfid_tags := [] }) := by
  have hgate : updateSensorCallback s now =
      some { frame_id := s.description.frame_id, header_stamp := now,
             header_frame_id := s.ns ++ "_" ++ s.description.frame_id,
             rfid_tags :=
               detectedTags s.sensorTransform s.description s.rfid_tags } := by
    unfold updateSensorCallback
    rw [if_neg (by simp [h] : ¬ (s.gotTransform = false))]
    rw [if_neg (by simp [hh, hw] : ¬ (s.map.height = 0 ∨ s.map.width = 0))]
  constructor
  · exact ⟨_, hgate⟩
  · intro htags
    rw [hgate, htags]
    rfl

/-- Witness for claim C10: the ready scenario state with an emptied tag cache
still publishes, with an empty detection list. -/
theorem cycle_always_reports_witness :
    updateSensorCallback { stateW with rfid_tags := [] } 7 =
      some { frame_id := "rfid_reader_0", header_stamp := 7,
             header_frame_id := "robot0_rfid_reader_0",
             rfid_tags := [] } :=
  (cycle_always_reports { stateW with rfid_tags := [] } 7 rfl
    (by simp [stateW]) (by simp [stateW])).2 rfl

end StdrRobot
